import Mathlib

/-!
Verification of the GAuthify Python client library (gauthify/common.py).

The embedding models the request-dispatch core (`GAuthify.request_handler`),
the error taxonomy (`GAuthifyError` and its six subtypes), and the
per-operation callers (`create_user`, `update_user`, `check_auth`,
`send_sms`, `send_email`, `send_voice`).

The network is modelled as a pure function from an HTTP request descriptor
to an endpoint result: either the transport raised `requests.RequestException`
(`unreachable`) or a response arrived, carrying a status code, the value of
the `req.json` property (the parsed body, or nothing when the body failed to
parse as JSON), and an opaque label standing for the `req.raw` stream object.
-/

set_option autoImplicit false

/-- A JSON value, as produced by the `req.json` property of the `requests`
library: objects are association lists of string keys (assumed key-distinct,
as parsed JSON objects are). -/
inductive Json where
  | null
  | bool (b : Bool)
  | num (n : Int)
  | str (s : String)
  | arr (elems : List Json)
  | obj (fields : List (String × Json))

/-- Python `d[k]`-style lookup into a parsed JSON object: the first binding of `k`. -/
def dictGet (fields : List (String × Json)) (k : String) : Option Json :=
  (fields.find? (fun p => p.1 == k)).map Prod.snd

/-- The outcome of `requests.request` on one endpoint: either the transport
raised `requests.RequestException`, or a response arrived with its status
code, its `req.json` body (`none` when the body is not valid JSON), and its
`req.raw` stream, modelled as an opaque string label. -/
inductive EndpointResult where
  | unreachable
  | response (status : Nat) (body : Option Json) (raw : String)

/-- A parameter value in the outgoing parameter mapping: either a plain
string, or the `json.dumps` serialization of a structured value (used for
the `meta` field of `create_user` / `update_user`). -/
inductive ParamVal where
  | str (s : String)
  | jsonDumped (j : Json)

/-- The request descriptor handed to `requests.request`: lower-cased method,
full URL (`base_url + url_addon`), the parameter mapping (sent both as query
string and body in the source), and the client headers. -/
structure HttpRequest where
  method : String
  url : String
  params : List (String × ParamVal)
  headers : List (String × String)

/-- The network: a pure function assigning to every request the result the
corresponding endpoint produces. -/
def Net : Type := HttpRequest → EndpointResult

/-- The error kinds of the library: the five structured-error subclasses of
`GAuthifyError` plus `ServerError`. -/
inductive ErrKind where
  | apiKey
  | rateLimit
  | parameter
  | notFound
  | conflict
  | server
deriving DecidableEq

/-- A raised `GAuthifyError` (any subtype): the constructor arguments
`(msg, http_status, error_code, response_body)` together with the subtype
tag. `msg` and `error_code` are JSON values since the source passes
`json_resp['error_message']` / `json_resp['error_code']` through untouched;
`ServerError` passes plain strings, embedded via `Json.str`. -/
structure GAuthifyError where
  kind : ErrKind
  msg : Json
  http_status : Nat
  error_code : Json
  response_body : String

/-- An exception escaping a library call: a `GAuthifyError`, or one of the
plain Python exceptions that can escape (a `KeyError` from a missing dict
key, a `TypeError` from subscripting a non-dict). -/
inductive PyError where
  | gauthify (e : GAuthifyError)
  | keyError (k : String)
  | typeError

/-- Client state: the `access_points` list and the `headers` dict set up in
`GAuthify.__init__` (both mutable in Python; `quick_test` mutates
`access_points`, which is why they are modelled as plain fields). -/
structure GAuthify where
  access_points : List String
  headers : List (String × String)

/-- The `ServerError` raised when every access point fails: note the
adjacent-string-literal concatenation in the source yields
"...all accesspoints..." with no space. -/
def communicationError : GAuthifyError :=
  { kind := .server
    msg := Json.str ("Communication error with all access" ++
      "points. Please contact " ++ "support@gauthify.com for help.")
    http_status := 500
    error_code := Json.str "500"
    response_body := "" }

/-- The status codes the dispatcher recognizes as structured errors:
`[401, 402, 406, 404, 409]` in source order. -/
def recognizedCodes : List Nat := [401, 402, 406, 404, 409]

/-- Whether `req.json` produced a Python dict
(`isinstance(json_resp, dict)`). -/
def isDictOpt : Option Json → Bool
  | some (Json.obj _) => true
  | _ => false

/-- The condition under which the loop body raises
`requests.ConnectionError` and moves on, or the request itself raised:
`not isinstance(json_resp, dict) or (status_code > 400 and status_code not
in [401, 402, 406, 404, 409])`. -/
def isTransportFailure : EndpointResult → Bool
  | .unreachable => true
  | .response status body _ =>
      !(isDictOpt body) ||
        (decide (status > 400) && !(recognizedCodes.contains status))

/-- A response the loop accepted (executed `break` on): its status code, its
parsed dict body, and its raw stream label. -/
structure Accepted where
  status : Nat
  body : List (String × Json)
  raw : String

/-- The request descriptor built on one loop iteration:
`requests.request(type.lower(), base_url + url_addon, data=params,
params=params, headers=self.headers, timeout=5)`. -/
def mkReq (type url_addon : String) (params : List (String × ParamVal))
    (g : GAuthify) (base_url : String) : HttpRequest :=
  { method := type.toLower
    url := base_url ++ url_addon
    params := params
    headers := g.headers }

/-- The `for base_url in self.access_points` loop of `request_handler`,
threading the client state `g` (which the body reads but never writes).
On a transport failure at `base_url`, the handler compares `base_url ==
self.access_points[-1]` (by string value, `lastUrl`) and either raises the
fixed `ServerError` or continues with the remaining endpoints. -/
def runLoop (net : Net) (type url_addon : String)
    (params : List (String × ParamVal)) (lastUrl : String) (g : GAuthify) :
    List String → Except GAuthifyError (Option Accepted) × GAuthify
  | [] => (.ok none, g)
  | base_url :: rest =>
    let onFail : Except GAuthifyError (Option Accepted) × GAuthify :=
      if base_url == lastUrl then (.error communicationError, g)
      else runLoop net type url_addon params lastUrl g rest
    match net (mkReq type url_addon params g base_url) with
    | .unreachable => onFail
    | .response status body raw =>
      match body with
      | some (Json.obj fields) =>
        if decide (status > 400) && !(recognizedCodes.contains status) then onFail
        else (.ok (some ⟨status, fields, raw⟩), g)
      | _ => onFail

/-- Raising one of the five structured errors: the source evaluates
`json_resp['error_message']` first and `json_resp['error_code']` second, so
a missing key surfaces as a `KeyError` instead of the typed error. -/
def raiseTyped (kind : ErrKind) (acc : Accepted) :
    Except PyError (Option Json) :=
  match dictGet acc.body "error_message" with
  | none => .error (.keyError "error_message")
  | some m =>
    match dictGet acc.body "error_code" with
    | none => .error (.keyError "error_code")
    | some c =>
      .error (.gauthify ⟨kind, m, acc.status, c, acc.raw⟩)

/-- The status-code classification after the loop: 401 → `ApiKeyError`,
402 → `RateLimitError`, 406 → `ParameterError`, 404 → `NotFoundError`,
409 → `ConflictError`, otherwise `return json_resp.get('data')`. -/
def classify (acc : Accepted) : Except PyError (Option Json) :=
  if acc.status == 401 then raiseTyped .apiKey acc
  else if acc.status == 402 then raiseTyped .rateLimit acc
  else if acc.status == 406 then raiseTyped .parameter acc
  else if acc.status == 404 then raiseTyped .notFound acc
  else if acc.status == 409 then raiseTyped .conflict acc
  else .ok (dictGet acc.body "data")

/-- The method `GAuthify.request_handler(type, url_addon, params)`: run the failover
loop over `self.access_points`, then classify the accepted response. The
second component is the client state after the call (the body reads
`self.access_points` and `self.headers` but never assigns them). With an
empty `access_points` list the loop never runs, every status comparison
against the initial `status_code = ''` is false, and `{}.get('data')`
(that is, `none`) is returned. -/
def request_handler (net : Net) (g : GAuthify) (type url_addon : String)
    (params : List (String × ParamVal)) :
    Except PyError (Option Json) × GAuthify :=
  match g.access_points with
  | [] => (.ok none, g)
  | u :: rest =>
    match runLoop net type url_addon params
        ((u :: rest).getLastD "") g (u :: rest) with
    | (.error e, g') => (.error (.gauthify e), g')
    | (.ok none, g') => (.ok none, g')
    | (.ok (some acc), g') => (classify acc, g')

/-- Python truthiness of an optional string argument: `None` and the empty
string are falsy (the callers guard each optional parameter with a bare
`if email:`-style test). -/
def truthyStr : Option String → Bool
  | none => false
  | some s => s ≠ ""

/-- Python truthiness of a structured (JSON-like) value, used for the
`meta` argument: `None`, `{}`, `[]`, `''`, `0`, `False` and `null` are
falsy. -/
def truthyJson : Option Json → Bool
  | none => false
  | some Json.null => false
  | some (Json.bool b) => b
  | some (Json.num n) => n ≠ 0
  | some (Json.str s) => s ≠ ""
  | some (Json.arr elems) => !elems.isEmpty
  | some (Json.obj fields) => !fields.isEmpty

/-- Assignment `params[k] = v` guarded by `if v:` for a string-valued optional
argument. -/
def addIfTruthy (ps : List (String × ParamVal)) (k : String)
    (v : Option String) : List (String × ParamVal) :=
  if truthyStr v then ps ++ [(k, ParamVal.str (v.getD ""))] else ps

/-- Statement `if meta: params['meta'] = json.dumps(meta)`. -/
def addMeta (ps : List (String × ParamVal)) (meta : Option Json) :
    List (String × ParamVal) :=
  match meta with
  | some j => if truthyJson (some j) then ps ++ [("meta", ParamVal.jsonDumped j)] else ps
  | none => ps

/-- The parameter mapping assembled by `create_user`: `unique_id` and
`display_name` always, then `meta`, `email`, `sms_number`, `voice_number`
in source order when truthy. -/
def create_user_params (unique_id display_name : String)
    (email sms_number voice_number : Option String) (meta : Option Json) :
    List (String × ParamVal) :=
  addIfTruthy
    (addIfTruthy
      (addIfTruthy
        (addMeta [("unique_id", ParamVal.str unique_id),
                  ("display_name", ParamVal.str display_name)] meta)
        "email" email)
      "sms_number" sms_number)
    "voice_number" voice_number

/-- Method `GAuthify.create_user`: POST to `users/` with the assembled params. -/
def create_user (net : Net) (g : GAuthify) (unique_id display_name : String)
    (email sms_number voice_number : Option String) (meta : Option Json) :
    Except PyError (Option Json) × GAuthify :=
  request_handler net g "post" "users/"
    (create_user_params unique_id display_name email sms_number voice_number meta)

/-- The parameter mapping assembled by `update_user`: starts empty, then
`email`, `sms_number`, `voice_number`, `meta` when truthy, and
`reset_key = 'true'` when the `reset_key` flag is set. -/
def update_user_params (email sms_number voice_number : Option String)
    (meta : Option Json) (reset_key : Bool) : List (String × ParamVal) :=
  let ps :=
    addMeta
      (addIfTruthy
        (addIfTruthy
          (addIfTruthy ([] : List (String × ParamVal)) "email" email)
          "sms_number" sms_number)
        "voice_number" voice_number)
      meta
  if reset_key then ps ++ [("reset_key", ParamVal.str "true")] else ps

/-- Method `GAuthify.update_user`: PUT to `users/{unique_id}/`. -/
def update_user (net : Net) (g : GAuthify) (unique_id : String)
    (email sms_number voice_number : Option String) (meta : Option Json)
    (reset_key : Bool) : Except PyError (Option Json) × GAuthify :=
  request_handler net g "put" ("users/" ++ unique_id ++ "/")
    (update_user_params email sms_number voice_number meta reset_key)

/-- The parameter mapping assembled by `send_sms`: `unique_id` always,
`sms_number` when truthy. -/
def send_sms_params (unique_id : String) (sms_number : Option String) :
    List (String × ParamVal) :=
  addIfTruthy [("unique_id", ParamVal.str unique_id)] "sms_number" sms_number

/-- Method `GAuthify.send_sms`: POST to `sms/` (the `"sms/".format(unique_id)` in
the source has no placeholder, so the id is not interpolated). -/
def send_sms (net : Net) (g : GAuthify) (unique_id : String)
    (sms_number : Option String) : Except PyError (Option Json) × GAuthify :=
  request_handler net g "post" "sms/" (send_sms_params unique_id sms_number)

/-- The parameter mapping assembled by `send_email`. -/
def send_email_params (unique_id : String) (email : Option String) :
    List (String × ParamVal) :=
  addIfTruthy [("unique_id", ParamVal.str unique_id)] "email" email

/-- Method `GAuthify.send_email`: POST to `email/`. -/
def send_email (net : Net) (g : GAuthify) (unique_id : String)
    (email : Option String) : Except PyError (Option Json) × GAuthify :=
  request_handler net g "post" "email/" (send_email_params unique_id email)

/-- The parameter mapping assembled by `send_voice`. -/
def send_voice_params (unique_id : String) (voice_number : Option String) :
    List (String × ParamVal) :=
  addIfTruthy [("unique_id", ParamVal.str unique_id)] "voice_number" voice_number

/-- Method `GAuthify.send_voice`: POST to `voice/`. -/
def send_voice (net : Net) (g : GAuthify) (unique_id : String)
    (voice_number : Option String) : Except PyError (Option Json) × GAuthify :=
  request_handler net g "post" "voice/" (send_voice_params unique_id voice_number)

/-- Evaluation of `response['authenticated']` on the dispatcher's returned
payload: subscripting `None` or a non-dict raises `TypeError`; a dict
without the key raises `KeyError`; otherwise the value is returned. -/
def lookupAuthenticated : Option Json → Except PyError Json
  | some (Json.obj fields) =>
    match dictGet fields "authenticated" with
    | some v => .ok v
    | none => .error (.keyError "authenticated")
  | _ => .error .typeError

/-- The parameter mapping assembled by `check_auth`:
`{'auth_code': auth_code, 'unique_id': unique_id}`. -/
def check_auth_params (unique_id auth_code : String) :
    List (String × ParamVal) :=
  [("auth_code", ParamVal.str auth_code), ("unique_id", ParamVal.str unique_id)]

/-- Method `GAuthify.check_auth(unique_id, auth_code, safe_mode)`: POST to
`check/` and return `response['authenticated']`. The `try` block catches
only `GAuthifyError`: in safe mode such an error becomes `True`, otherwise
`raise e` re-raises it unchanged. A `KeyError` escaping `request_handler`
and the `TypeError`/`KeyError` from `response['authenticated']` are not
`GAuthifyError`s and propagate in either mode. -/
def check_auth (net : Net) (g : GAuthify) (unique_id auth_code : String)
    (safe_mode : Bool) : Except PyError Json :=
  match (request_handler net g "post" "check/"
      (check_auth_params unique_id auth_code)).1 with
  | .ok d => lookupAuthenticated d
  | .error (.gauthify e) =>
    if safe_mode then .ok (Json.bool true) else .error (.gauthify e)
  | .error e => .error e

/-- Whether a key occurs in an outgoing parameter mapping. -/
def hasKey (ps : List (String × ParamVal)) (k : String) : Bool :=
  ps.any (fun p => p.1 == k)

/-- The fixed status-to-error-kind classification table of the library
(the contract the spec states in its error-handling section). -/
def kindOf : Nat → ErrKind
  | 401 => .apiKey
  | 402 => .rateLimit
  | 406 => .parameter
  | 404 => .notFound
  | 409 => .conflict
  | _ => .server

/-! ### Helper lemmas about the dispatch loop -/

lemma getLastD_irrel {α : Type} (a : α) (l : List α) (d d' : α) :
    (a :: l).getLastD d = (a :: l).getLastD d' := by
  rw [List.getLastD_cons, List.getLastD_cons]

/-- A transport failure at a non-last endpoint just moves the loop on. -/
lemma runLoop_cons_fail (net : Net) (type url_addon : String)
    (params : List (String × ParamVal)) (lastUrl : String) (g : GAuthify)
    (p : String) (l : List String)
    (hfail : isTransportFailure (net (mkReq type url_addon params g p)) = true)
    (hne : p ≠ lastUrl) :
    runLoop net type url_addon params lastUrl g (p :: l) =
      runLoop net type url_addon params lastUrl g l := by
  rw [runLoop]
  rcases hr : net (mkReq type url_addon params g p) with _ | ⟨status, body, raw⟩
  · simp [hne]
  · rw [hr] at hfail
    match body with
    | none => simp [hne]
    | some Json.null => simp [hne]
    | some (Json.bool b) => simp [hne]
    | some (Json.num n) => simp [hne]
    | some (Json.str s) => simp [hne]
    | some (Json.arr elems) => simp [hne]
    | some (Json.obj fields) =>
      simp [isTransportFailure, isDictOpt] at hfail
      simp [hfail, hne]

/-- A transport failure at an endpoint whose URL equals the last entry
raises the fixed `ServerError` at once. -/
lemma runLoop_cons_fail_last (net : Net) (type url_addon : String)
    (params : List (String × ParamVal)) (lastUrl : String) (g : GAuthify)
    (p : String) (l : List String)
    (hfail : isTransportFailure (net (mkReq type url_addon params g p)) = true)
    (heq : p = lastUrl) :
    runLoop net type url_addon params lastUrl g (p :: l) =
      (.error communicationError, g) := by
  rw [runLoop]
  rcases hr : net (mkReq type url_addon params g p) with _ | ⟨status, body, raw⟩
  · simp [heq]
  · rw [hr] at hfail
    match body with
    | none => simp [heq]
    | some Json.null => simp [heq]
    | some (Json.bool b) => simp [heq]
    | some (Json.num n) => simp [heq]
    | some (Json.str s) => simp [heq]
    | some (Json.arr elems) => simp [heq]
    | some (Json.obj fields) =>
      simp [isTransportFailure, isDictOpt] at hfail
      simp [hfail, heq]

/-- An accepted response stops the loop with that response. -/
lemma runLoop_cons_accept (net : Net) (type url_addon : String)
    (params : List (String × ParamVal)) (lastUrl : String) (g : GAuthify)
    (p : String) (l : List String) (status : Nat)
    (fields : List (String × Json)) (raw : String)
    (hr : net (mkReq type url_addon params g p) =
      .response status (some (Json.obj fields)) raw)
    (hok : (decide (status > 400) && !(recognizedCodes.contains status)) = false) :
    runLoop net type url_addon params lastUrl g (p :: l) =
      (.ok (some ⟨status, fields, raw⟩), g) := by
  rw [runLoop, hr]
  simp only [hok]
  simp

/-- Transport failures at a prefix of non-last endpoints are skipped. -/
lemma runLoop_skip (net : Net) (type url_addon : String)
    (params : List (String × ParamVal)) (lastUrl : String) (g : GAuthify)
    (pre l : List String)
    (hfails : ∀ p ∈ pre,
      isTransportFailure (net (mkReq type url_addon params g p)) = true ∧
        p ≠ lastUrl) :
    runLoop net type url_addon params lastUrl g (pre ++ l) =
      runLoop net type url_addon params lastUrl g l := by
  induction pre with
  | nil => rfl
  | cons p pre ih =>
    rw [List.cons_append,
      runLoop_cons_fail net type url_addon params lastUrl g p (pre ++ l)
        (hfails p (List.mem_cons_self p pre)).1
        (hfails p (List.mem_cons_self p pre)).2]
    exact ih (fun q hq => hfails q (List.mem_cons_of_mem p hq))

/-- If every endpoint in the remaining list fails transport-level and the
list still contains the last entry at its end, the loop ends in the fixed
`ServerError`. -/
lemma runLoop_all_fail (net : Net) (type url_addon : String)
    (params : List (String × ParamVal)) (lastUrl : String) (g : GAuthify) :
    ∀ l : List String, l ≠ [] → l.getLastD "" = lastUrl →
    (∀ p ∈ l, isTransportFailure (net (mkReq type url_addon params g p)) = true) →
    runLoop net type url_addon params lastUrl g l =
      (.error communicationError, g)
  | [], hne, _, _ => absurd rfl hne
  | [p], _, hlast, hfails => by
    apply runLoop_cons_fail_last net type url_addon params lastUrl g p []
      (hfails p (List.mem_singleton.mpr rfl))
    simpa using hlast
  | p :: q :: l, _, hlast, hfails => by
    by_cases hp : p = lastUrl
    · exact runLoop_cons_fail_last net type url_addon params lastUrl g p (q :: l)
        (hfails p (List.mem_cons_self p (q :: l))) hp
    · rw [runLoop_cons_fail net type url_addon params lastUrl g p (q :: l)
        (hfails p (List.mem_cons_self p (q :: l))) hp]
      apply runLoop_all_fail net type url_addon params lastUrl g (q :: l)
        (List.cons_ne_nil q l)
      · rw [← hlast]; simp [List.getLastD_cons]
      · exact fun r hr => hfails r (List.mem_cons_of_mem p hr)

/-- The loop never writes the client state: whatever branch it exits
through, the state it returns is the state it was given. -/
lemma runLoop_snd (net : Net) (type url_addon : String)
    (params : List (String × ParamVal)) (lastUrl : String) (g : GAuthify) :
    ∀ l : List String,
      (runLoop net type url_addon params lastUrl g l).2 = g
  | [] => rfl
  | p :: l => by
    have ih := runLoop_snd net type url_addon params lastUrl g l
    rw [runLoop]
    repeat' split
    all_goals simp_all

/-- The loop result does not depend on the client's endpoint list, only on
its headers (the list is consulted only through the arguments `l` and
`lastUrl`). -/
lemma runLoop_fst_headers (net : Net) (type url_addon : String)
    (params : List (String × ParamVal)) (lastUrl : String)
    (g1 g2 : GAuthify) (hh : g1.headers = g2.headers) :
    ∀ l : List String,
      (runLoop net type url_addon params lastUrl g1 l).1 =
        (runLoop net type url_addon params lastUrl g2 l).1
  | [] => rfl
  | p :: l => by
    have ih := runLoop_fst_headers net type url_addon params lastUrl g1 g2 hh l
    have hreq : mkReq type url_addon params g1 p =
        mkReq type url_addon params g2 p := by
      simp [mkReq, hh]
    rw [runLoop, runLoop, hreq]
    rcases net (mkReq type url_addon params g2 p) with _ | ⟨status, body, raw⟩
    · by_cases hp : p = lastUrl <;> simp [hp, ih]
    · match body with
      | none | some Json.null | some (Json.bool _) | some (Json.num _)
      | some (Json.str _) | some (Json.arr _) =>
        by_cases hp : p = lastUrl <;> simp [hp, ih]
      | some (Json.obj fields) =>
        by_cases hcnd :
          (decide (status > 400) && !(recognizedCodes.contains status)) = true
        · simp only [hcnd]
          by_cases hp : p = lastUrl <;> simp [hp, ih]
        · rw [Bool.not_eq_true] at hcnd
          simp only [hcnd]
          simp

/-- Unfolding `request_handler` on a client with a nonempty endpoint
list. -/
lemma request_handler_eq (net : Net) (headers : List (String × String))
    (type url_addon : String) (params : List (String × ParamVal))
    (aps : List String) (hne : aps ≠ []) :
    request_handler net ⟨aps, headers⟩ type url_addon params =
      match runLoop net type url_addon params (aps.getLastD "")
          ⟨aps, headers⟩ aps with
      | (.error e, g') => (.error (.gauthify e), g')
      | (.ok none, g') => (.ok none, g')
      | (.ok (some acc), g') => (classify acc, g') := by
  cases aps with
  | nil => exact absurd rfl hne
  | cons u rest => rfl

/-- A recognized structured-error status, with both error fields present,
classifies to the typed error of `kindOf`. -/
lemma classify_structured (s : Nat) (fields : List (String × Json))
    (raw : String) (m c : Json)
    (hs : s ∈ recognizedCodes)
    (hm : dictGet fields "error_message" = some m)
    (hc : dictGet fields "error_code" = some c) :
    classify ⟨s, fields, raw⟩ =
      .error (.gauthify ⟨kindOf s, m, s, c, raw⟩) := by
  simp [recognizedCodes] at hs
  rcases hs with rfl | rfl | rfl | rfl | rfl <;>
    simp [classify, raiseTyped, hm, hc, kindOf]

/-- A status in the success range classifies to `json_resp.get('data')`. -/
lemma classify_success (s : Nat) (fields : List (String × Json))
    (raw : String) (hs : s ≤ 400) :
    classify ⟨s, fields, raw⟩ = .ok (dictGet fields "data") := by
  have h1 : s ≠ 401 := by omega
  have h2 : s ≠ 402 := by omega
  have h3 : s ≠ 406 := by omega
  have h4 : s ≠ 404 := by omega
  have h5 : s ≠ 409 := by omega
  simp [classify, h1, h2, h3, h4, h5]

/-! ### Claim theorems -/

/-- C1: for every status code s in {401, 402, 404, 406, 409}, when an
endpoint (reached after transport failures at earlier, non-last endpoints)
returns a response whose body parses as a JSON object with status s,
`request_handler` raises the error kind mapped to s (401 → ApiKeyError,
402 → RateLimitError, 404 → NotFoundError, 406 → ParameterError,
409 → ConflictError), carrying the body's `error_message` as the message
and its `error_code` as the code. The endpoints after `u` and the
network's behavior at them are universally quantified and absent from the
conclusion: no further endpoint is tried after the structured response. -/
theorem c1_structured_error_classification (net : Net)
    (headers : List (String × String)) (type url_addon : String)
    (params : List (String × ParamVal)) (pre rest : List String) (u : String)
    (s : Nat) (fields : List (String × Json)) (raw : String) (m c : Json)
    (hpre : ∀ p ∈ pre,
      isTransportFailure
        (net (mkReq type url_addon params ⟨pre ++ u :: rest, headers⟩ p)) = true ∧
        p ≠ (pre ++ u :: rest).getLastD "")
    (hu : net (mkReq type url_addon params ⟨pre ++ u :: rest, headers⟩ u) =
      .response s (some (Json.obj fields)) raw)
    (hs : s ∈ recognizedCodes)
    (hm : dictGet fields "error_message" = some m)
    (hc : dictGet fields "error_code" = some c) :
    (request_handler net ⟨pre ++ u :: rest, headers⟩ type url_addon params).1 =
      .error (.gauthify ⟨kindOf s, m, s, c, raw⟩) := by
  have hcont : recognizedCodes.contains s = true := by
    simp [recognizedCodes] at hs
    rcases hs with rfl | rfl | rfl | rfl | rfl <;> rfl
  have hok : (decide (s > 400) && !(recognizedCodes.contains s)) = false := by
    rw [hcont]
    simp
  rw [request_handler_eq net headers type url_addon params (pre ++ u :: rest)
    (by simp)]
  rw [runLoop_skip net type url_addon params ((pre ++ u :: rest).getLastD "")
    ⟨pre ++ u :: rest, headers⟩ pre (u :: rest) hpre]
  rw [runLoop_cons_accept net type url_addon params
    ((pre ++ u :: rest).getLastD "") ⟨pre ++ u :: rest, headers⟩ u rest
    s fields raw hu hok]
  exact classify_structured s fields raw m c hs hm hc

/-- Concrete network for the C1 witness: the first endpoint is down, the
second answers 402 with a structured body, the third would succeed but is
never consulted. -/
def c1Net : Net := fun r =>
  if r.url == "https://p/x" then .unreachable
  else if r.url == "https://a/x" then
    .response 402 (some (Json.obj
      [("error_message", Json.str "limit reached"),
       ("error_code", Json.str "402_LIMIT")])) "rawA"
  else .response 200 (some (Json.obj [("data", Json.bool true)])) "rawZ"

/-- Witness for C1 at a concrete input: a 402 from the second endpoint
becomes a `RateLimitError` with the server-provided message and code. -/
theorem c1_witness :
    (402 ∈ recognizedCodes) ∧
    ((request_handler c1Net ⟨["https://p/", "https://a/", "https://z/"], []⟩
        "get" "x" []).1 =
      .error (.gauthify ⟨kindOf 402, Json.str "limit reached", 402,
        Json.str "402_LIMIT", "rawA"⟩)) :=
  ⟨by decide,
    c1_structured_error_classification c1Net [] "get" "x" []
      ["https://p/"] ["https://z/"] "https://a/" 402
      [("error_message", Json.str "limit reached"),
       ("error_code", Json.str "402_LIMIT")] "rawA"
      (Json.str "limit reached") (Json.str "402_LIMIT")
      (by
        intro p hp
        rw [List.mem_singleton] at hp
        subst hp
        exact ⟨rfl, by decide⟩)
      rfl (by decide) rfl rfl⟩

/-- Concrete network for the C2 counterexample: the first endpoint answers
status 400 with a JSON-object body, the second answers 200. -/
def c2Net : Net := fun r =>
  if r.url == "https://a/x" then
    .response 400 (some (Json.obj
      [("data", Json.str "first"),
       ("error_message", Json.str "bad request"),
       ("error_code", Json.str "400")])) "r1"
  else .response 200 (some (Json.obj [("data", Json.str "second")])) "r2"

/-- C2 fails as stated: the source tests `status_code > 400`, not `>= 400`.
A response with status exactly 400 and a JSON-object body is accepted and
its `data` field returned; the dispatcher does not fail over to the second
endpoint (whose result, shown in the last conjunct, would have been
`"second"`). -/
theorem c2_counterexample :
    c2Net (mkReq "get" "x" [] ⟨["https://a/", "https://b/"], []⟩ "https://a/") =
      .response 400 (some (Json.obj
        [("data", Json.str "first"),
         ("error_message", Json.str "bad request"),
         ("error_code", Json.str "400")])) "r1" ∧
    (request_handler c2Net ⟨["https://a/", "https://b/"], []⟩ "get" "x" []).1 =
      .ok (some (Json.str "first")) ∧
    (request_handler c2Net ⟨["https://b/"], []⟩ "get" "x" []).1 =
      .ok (some (Json.str "second")) :=
  ⟨rfl, rfl, rfl⟩

/-- C2 amended: a response is treated as a transport failure — the endpoint
is abandoned and the dispatcher continues with the next endpoint of the
list — exactly when the body is not a JSON object, or the status code is
STRICTLY greater than 400 and not one of 401, 402, 404, 406, 409 (status
exactly 400 with a JSON-object body is accepted). `isTransportFailure` is
that code condition; the conclusion says the dispatcher's result on
`u :: rest` is the result on `rest` alone. -/
theorem c2_amended_transport_failure_continues (net : Net)
    (headers : List (String × String)) (type url_addon : String)
    (params : List (String × ParamVal)) (u : String) (rest : List String)
    (hne : rest ≠ [])
    (hfail : isTransportFailure
      (net (mkReq type url_addon params ⟨u :: rest, headers⟩ u)) = true)
    (hlast : u ≠ (u :: rest).getLastD "") :
    (request_handler net ⟨u :: rest, headers⟩ type url_addon params).1 =
      (request_handler net ⟨rest, headers⟩ type url_addon params).1 := by
  rcases rest with _ | ⟨r, rs⟩
  · exact absurd rfl hne
  · rw [request_handler_eq net headers type url_addon params (u :: r :: rs)
      (by simp)]
    rw [request_handler_eq net headers type url_addon params (r :: rs)
      (by simp)]
    rw [runLoop_cons_fail net type url_addon params
      ((u :: r :: rs).getLastD "") ⟨u :: r :: rs, headers⟩ u (r :: rs)
      hfail hlast]
    have hl : ((u :: r :: rs) : List String).getLastD "" =
        ((r :: rs) : List String).getLastD "" := by
      rw [List.getLastD_cons]
      exact getLastD_irrel r rs u ""
    rw [hl]
    have hfst := runLoop_fst_headers net type url_addon params
      ((r :: rs).getLastD "") ⟨u :: r :: rs, headers⟩ ⟨r :: rs, headers⟩ rfl
      (r :: rs)
    rcases h1 : runLoop net type url_addon params ((r :: rs).getLastD "")
      ⟨u :: r :: rs, headers⟩ (r :: rs) with ⟨res1, g1⟩
    rcases h2 : runLoop net type url_addon params ((r :: rs).getLastD "")
      ⟨r :: rs, headers⟩ (r :: rs) with ⟨res2, g2⟩
    rw [h1, h2] at hfst
    simp only at hfst
    subst hfst
    cases res1 with
    | error e => rfl
    | ok o => cases o <;> rfl

/-- Concrete network for the C2 amended witness: the first endpoint is
unreachable, the second succeeds. -/
def c2wNet : Net := fun r =>
  if r.url == "https://a/x" then .unreachable
  else .response 200 (some (Json.obj [("data", Json.num 5)])) "r2"

/-- Witness for the amended C2 at a concrete input. -/
theorem c2_amended_witness :
    isTransportFailure
      (c2wNet (mkReq "get" "x" [] ⟨["https://a/", "https://b/"], []⟩
        "https://a/")) = true ∧
    (request_handler c2wNet ⟨["https://a/", "https://b/"], []⟩ "get" "x" []).1 =
      (request_handler c2wNet ⟨["https://b/"], []⟩ "get" "x" []).1 :=
  ⟨rfl,
    c2_amended_transport_failure_continues c2wNet [] "get" "x" []
      "https://a/" ["https://b/"] (by simp) rfl (by decide)⟩

/-- C3: in safe mode, whenever the underlying dispatch raises any
`GAuthifyError` (any of the typed errors for 401/402/404/406/409 as well
as the `ServerError`), `check_auth` returns `True` and raises nothing. -/
theorem c3_check_auth_safe_mode_swallows (net : Net) (g : GAuthify)
    (unique_id auth_code : String) (e : GAuthifyError)
    (h : (request_handler net g "post" "check/"
      (check_auth_params unique_id auth_code)).1 = .error (.gauthify e)) :
    check_auth net g unique_id auth_code true = .ok (Json.bool true) := by
  unfold check_auth
  rw [h]
  rfl

/-- Concrete network for the C3 witness: every endpoint unreachable, so the
dispatch raises the `ServerError`. -/
def c3Net : Net := fun _ => .unreachable

/-- Witness for C3: with both endpoints down, safe-mode `check_auth`
returns `True`. -/
theorem c3_witness :
    (request_handler c3Net ⟨["https://a/", "https://b/"], []⟩ "post" "check/"
      (check_auth_params "uid" "123456")).1 =
      .error (.gauthify communicationError) ∧
    check_auth c3Net ⟨["https://a/", "https://b/"], []⟩ "uid" "123456" true =
      .ok (Json.bool true) :=
  ⟨rfl,
    c3_check_auth_safe_mode_swallows c3Net ⟨["https://a/", "https://b/"], []⟩
      "uid" "123456" communicationError rfl⟩

/-- C4: when every endpoint of a (nonempty) configured list fails
transport-level — unreachable, unparseable body, or an unrecognized error
status — `request_handler` raises the fixed `ServerError`, whose message,
status (500), code ('500') and response body ('') are constants of the
source, independent of the network: no partial data from any failed
response appears in it. -/
theorem c4_exhaustion_raises_server_error (net : Net)
    (headers : List (String × String)) (type url_addon : String)
    (params : List (String × ParamVal)) (aps : List String)
    (hne : aps ≠ [])
    (hfails : ∀ p ∈ aps,
      isTransportFailure (net (mkReq type url_addon params ⟨aps, headers⟩ p)) = true) :
    (request_handler net ⟨aps, headers⟩ type url_addon params).1 =
      .error (.gauthify
        { kind := .server
          msg := Json.str ("Communication error with all accesspoints. " ++
            "Please contact support@gauthify.com for help.")
          http_status := 500
          error_code := Json.str "500"
          response_body := "" }) := by
  rw [request_handler_eq net headers type url_addon params aps hne]
  rw [runLoop_all_fail net type url_addon params (aps.getLastD "")
    ⟨aps, headers⟩ aps hne rfl hfails]
  rfl

/-- Concrete network for the C4 witness: the first endpoint returns an
unparseable body, the second an unrecognized 500. -/
def c4Net : Net := fun r =>
  if r.url == "https://a/x" then .response 200 none "r1"
  else .response 500 (some (Json.obj [("data", Json.str "leak")])) "r2"

/-- Witness for C4: both endpoints fail transport-level and the fixed
`ServerError` comes back with no data from either response. -/
theorem c4_witness :
    (∀ p ∈ (["https://a/", "https://b/"] : List String),
      isTransportFailure
        (c4Net (mkReq "get" "x" [] ⟨["https://a/", "https://b/"], []⟩ p)) = true) ∧
    (request_handler c4Net ⟨["https://a/", "https://b/"], []⟩ "get" "x" []).1 =
      .error (.gauthify
        { kind := .server
          msg := Json.str ("Communication error with all accesspoints. " ++
            "Please contact support@gauthify.com for help.")
          http_status := 500
          error_code := Json.str "500"
          response_body := "" }) :=
  ⟨by decide,
    c4_exhaustion_raises_server_error c4Net [] "get" "x" []
      ["https://a/", "https://b/"] (by simp) (by decide)⟩

/-- C5: on a 2-endpoint list where the first endpoint fails transport-level
and the second returns an accepted structured response in the success range,
`request_handler` returns the second endpoint's `data` field and raises
nothing: failover is transparent to the caller. -/
theorem c5_failover_transparent (net : Net)
    (headers : List (String × String)) (type url_addon : String)
    (params : List (String × ParamVal)) (e1 e2 : String) (s : Nat)
    (fields : List (String × Json)) (raw : String)
    (h1 : isTransportFailure
      (net (mkReq type url_addon params ⟨[e1, e2], headers⟩ e1)) = true)
    (h2 : net (mkReq type url_addon params ⟨[e1, e2], headers⟩ e2) =
      .response s (some (Json.obj fields)) raw)
    (hs : s ≤ 400) :
    (request_handler net ⟨[e1, e2], headers⟩ type url_addon params).1 =
      .ok (dictGet fields "data") := by
  have hne12 : e1 ≠ e2 := by
    intro h
    have hreq : mkReq type url_addon params ⟨[e1, e2], headers⟩ e1 =
        mkReq type url_addon params ⟨[e1, e2], headers⟩ e2 := by
      simp [mkReq, h]
    rw [hreq, h2] at h1
    simp [isTransportFailure, isDictOpt] at h1
    omega
  have hok : (decide (s > 400) && !(recognizedCodes.contains s)) = false := by
    have : ¬ (s > 400) := by omega
    simp [this]
  rw [request_handler_eq net headers type url_addon params [e1, e2] (by simp)]
  rw [runLoop_cons_fail net type url_addon params
    (([e1, e2] : List String).getLastD "") ⟨[e1, e2], headers⟩ e1 [e2]
    h1 hne12]
  rw [runLoop_cons_accept net type url_addon params
    (([e1, e2] : List String).getLastD "") ⟨[e1, e2], headers⟩ e2 []
    s fields raw h2 hok]
  exact classify_success s fields raw hs

/-- Concrete network for the C5 witness. -/
def c5Net : Net := fun r =>
  if r.url == "https://a/users/" then .unreachable
  else .response 200 (some (Json.obj [("data", Json.num 7)])) "r2"

/-- Witness for C5: first endpoint down, second succeeds, the caller sees
the second endpoint's data. -/
theorem c5_witness :
    isTransportFailure
      (c5Net (mkReq "get" "users/" [] ⟨["https://a/", "https://b/"], []⟩
        "https://a/")) = true ∧
    c5Net (mkReq "get" "users/" [] ⟨["https://a/", "https://b/"], []⟩
        "https://b/") =
      .response 200 (some (Json.obj [("data", Json.num 7)])) "r2" ∧
    (request_handler c5Net ⟨["https://a/", "https://b/"], []⟩ "get" "users/"
      []).1 = .ok (some (Json.num 7)) :=
  ⟨rfl, rfl,
    c5_failover_transparent c5Net [] "get" "users/" [] "https://a/"
      "https://b/" 200 [("data", Json.num 7)] "r2" rfl rfl (by decide)⟩

/-- C6: without safe mode, `check_auth` re-raises any `GAuthifyError` from
the underlying dispatch unchanged — the very same error value, so the same
kind, message, status and code. -/
theorem c6_check_auth_unsafe_propagates (net : Net) (g : GAuthify)
    (unique_id auth_code : String) (e : GAuthifyError)
    (h : (request_handler net g "post" "check/"
      (check_auth_params unique_id auth_code)).1 = .error (.gauthify e)) :
    check_auth net g unique_id auth_code false = .error (.gauthify e) := by
  unfold check_auth
  rw [h]
  rfl

/-- Concrete network for the C6 witness: the only endpoint answers 406 with
a structured body, so the dispatch raises a `ParameterError`. -/
def c6Net : Net := fun _ =>
  .response 406 (some (Json.obj
    [("error_message", Json.str "missing unique_id"),
     ("error_code", Json.str "406_PARAM")])) "raw6"

/-- Witness for C6: the `ParameterError` reaches the caller unchanged. -/
theorem c6_witness :
    (request_handler c6Net ⟨["https://a/"], []⟩ "post" "check/"
      (check_auth_params "uid" "123456")).1 =
      .error (.gauthify ⟨.parameter, Json.str "missing unique_id", 406,
        Json.str "406_PARAM", "raw6"⟩) ∧
    check_auth c6Net ⟨["https://a/"], []⟩ "uid" "123456" false =
      .error (.gauthify ⟨.parameter, Json.str "missing unique_id", 406,
        Json.str "406_PARAM", "raw6"⟩) :=
  ⟨rfl,
    c6_check_auth_unsafe_propagates c6Net ⟨["https://a/"], []⟩ "uid" "123456"
      ⟨.parameter, Json.str "missing unique_id", 406, Json.str "406_PARAM",
        "raw6"⟩ rfl⟩

/-! ### Key-presence lemmas for the parameter builders -/

lemma hasKey_append (ps qs : List (String × ParamVal)) (k : String) :
    hasKey (ps ++ qs) k = (hasKey ps k || hasKey qs k) := by
  simp [hasKey, List.any_append]

lemma hasKey_addIfTruthy (ps : List (String × ParamVal)) (k' : String)
    (v : Option String) (k : String) :
    hasKey (addIfTruthy ps k' v) k =
      (hasKey ps k || (truthyStr v && (k' == k))) := by
  unfold addIfTruthy
  by_cases h : truthyStr v = true
  · rw [if_pos h, hasKey_append, h]
    simp [hasKey]
  · rw [Bool.not_eq_true] at h
    rw [if_neg (by simp [h]), h]
    simp

lemma hasKey_addMeta (ps : List (String × ParamVal)) (meta : Option Json)
    (k : String) :
    hasKey (addMeta ps meta) k =
      (hasKey ps k || (truthyJson meta && ("meta" == k))) := by
  match meta with
  | none => simp [addMeta, truthyJson]
  | some j =>
    show hasKey (if truthyJson (some j) = true then
      ps ++ [("meta", ParamVal.jsonDumped j)] else ps) k = _
    by_cases h : truthyJson (some j) = true
    · rw [if_pos h, hasKey_append, h]
      simp [hasKey]
    · rw [Bool.not_eq_true] at h
      rw [if_neg (by simp [h]), h]
      simp

/-- C7: in every per-operation caller (`create_user`, `update_user`,
`send_sms`, `send_email`, `send_voice`), an optional parameter the caller
leaves as `None` is absent from the parameter mapping handed to
`request_handler` — its key does not appear at all, so nothing empty or
null is sent for it. -/
theorem c7_omitted_optionals_absent (unique_id display_name : String)
    (email sms_number voice_number : Option String) (meta : Option Json)
    (reset_key : Bool) :
    hasKey (create_user_params unique_id display_name none sms_number
      voice_number meta) "email" = false ∧
    hasKey (create_user_params unique_id display_name email none
      voice_number meta) "sms_number" = false ∧
    hasKey (create_user_params unique_id display_name email sms_number
      none meta) "voice_number" = false ∧
    hasKey (create_user_params unique_id display_name email sms_number
      voice_number none) "meta" = false ∧
    hasKey (update_user_params none sms_number voice_number meta reset_key)
      "email" = false ∧
    hasKey (update_user_params email none voice_number meta reset_key)
      "sms_number" = false ∧
    hasKey (update_user_params email sms_number none meta reset_key)
      "voice_number" = false ∧
    hasKey (update_user_params email sms_number voice_number none reset_key)
      "meta" = false ∧
    hasKey (send_sms_params unique_id none) "sms_number" = false ∧
    hasKey (send_email_params unique_id none) "email" = false ∧
    hasKey (send_voice_params unique_id none) "voice_number" = false := by
  cases reset_key <;>
    refine ⟨?_, ?_, ?_, ?_, ?_, ?_, ?_, ?_, ?_, ?_, ?_⟩ <;>
    simp only [create_user_params, update_user_params, send_sms_params,
      send_email_params, send_voice_params, Bool.false_eq_true, if_true,
      if_false, ite_true, ite_false, hasKey_append, hasKey_addIfTruthy,
      hasKey_addMeta] <;>
    simp [hasKey, truthyStr, truthyJson]

/-- The function `request_handler` returns the client state it was given: the method
body reads `self.access_points` and `self.headers` but never assigns
them. -/
lemma request_handler_snd (net : Net) (g : GAuthify)
    (type url_addon : String) (params : List (String × ParamVal)) :
    (request_handler net g type url_addon params).2 = g := by
  obtain ⟨aps, hd⟩ := g
  cases aps with
  | nil => rfl
  | cons u rest =>
    have h := runLoop_snd net type url_addon params ((u :: rest).getLastD "")
      ⟨u :: rest, hd⟩ (u :: rest)
    rw [request_handler_eq net hd type url_addon params (u :: rest) (by simp)]
    rcases hres : runLoop net type url_addon params ((u :: rest).getLastD "")
      ⟨u :: rest, hd⟩ (u :: rest) with ⟨res, g'⟩
    rw [hres] at h
    simp only at h
    subst h
    cases res with
    | error e => rfl
    | ok o => cases o <;> rfl

/-- C8: `request_handler` mutates no client state — for every call, whether
it returns data or raises, the endpoint list and the headers of the client
after the call are exactly what they were before it. -/
theorem c8_request_handler_frame (net : Net) (g : GAuthify)
    (type url_addon : String) (params : List (String × ParamVal)) :
    (request_handler net g type url_addon params).2.access_points =
      g.access_points ∧
    (request_handler net g type url_addon params).2.headers = g.headers := by
  rw [request_handler_snd net g type url_addon params]
  exact ⟨rfl, rfl⟩

/-- C9 (implicit behavior): the give-up decision compares the current
endpoint's URL by string value against `self.access_points[-1]`, not by
position. If an endpoint `u` that is strictly earlier than the last
position (`rest` nonempty) has the same URL string as the last entry, a
transport failure at `u` raises the `ServerError` immediately; the
endpoints of `rest` and the network's behavior at them are universally
quantified and do not appear in the conclusion — they are never tried. -/
theorem c9_last_entry_compared_by_value (net : Net)
    (headers : List (String × String)) (type url_addon : String)
    (params : List (String × ParamVal)) (pre rest : List String) (u : String)
    (_hrest : rest ≠ [])
    (hulast : u = (pre ++ u :: rest).getLastD "")
    (hpre : ∀ p ∈ pre,
      isTransportFailure
        (net (mkReq type url_addon params ⟨pre ++ u :: rest, headers⟩ p)) = true ∧
        p ≠ (pre ++ u :: rest).getLastD "")
    (hufail : isTransportFailure
      (net (mkReq type url_addon params ⟨pre ++ u :: rest, headers⟩ u)) = true) :
    (request_handler net ⟨pre ++ u :: rest, headers⟩ type url_addon params).1 =
      .error (.gauthify communicationError) := by
  have hne : pre ++ u :: rest ≠ [] := by simp
  rw [request_handler_eq net headers type url_addon params (pre ++ u :: rest)
    hne]
  rw [runLoop_skip net type url_addon params ((pre ++ u :: rest).getLastD "")
    ⟨pre ++ u :: rest, headers⟩ pre (u :: rest) hpre]
  rw [runLoop_cons_fail_last net type url_addon params
    ((pre ++ u :: rest).getLastD "") ⟨pre ++ u :: rest, headers⟩ u rest
    hufail hulast]

/-- Concrete network for the C9 witness: the duplicated URL is down, the
middle endpoint would succeed but is never consulted. -/
def c9Net : Net := fun r =>
  if r.url == "https://a/x" then .unreachable
  else .response 200 (some (Json.obj [("data", Json.num 9)])) "rB"

/-- Witness for C9: with endpoint list `[a, b, a]` and `a` down, the call
gives up at once with the `ServerError` even though `b` works. -/
theorem c9_witness :
    isTransportFailure
      (c9Net (mkReq "get" "x" []
        ⟨["https://a/", "https://b/", "https://a/"], []⟩ "https://a/")) = true ∧
    (request_handler c9Net ⟨["https://a/", "https://b/", "https://a/"], []⟩
      "get" "x" []).1 = .error (.gauthify communicationError) :=
  ⟨rfl,
    c9_last_entry_compared_by_value c9Net [] "get" "x" [] []
      ["https://b/", "https://a/"] "https://a/" (by simp) (by decide)
      (by intro p hp; exact absurd hp (List.not_mem_nil p)) rfl⟩

/-- Whether the dispatcher's returned payload is a mapping containing the
key `authenticated`. -/
def hasAuthKey : Option Json → Bool
  | some (Json.obj fields) => (dictGet fields "authenticated").isSome
  | _ => false

/-- C10: safe mode swallows only `GAuthifyError`s. When the dispatch
succeeds but the returned payload is not a mapping with the key
`authenticated`, the lookup `response['authenticated']` raises a plain
`TypeError`/`KeyError`, and `check_auth` propagates it to the caller even
with `safe_mode` set, instead of returning `True`. -/
theorem c10_safe_mode_lookup_error_propagates (net : Net) (g : GAuthify)
    (unique_id auth_code : String) (d : Option Json) (pe : PyError)
    (hok : (request_handler net g "post" "check/"
      (check_auth_params unique_id auth_code)).1 = .ok d)
    (_hnokey : hasAuthKey d = false)
    (herr : lookupAuthenticated d = .error pe) :
    check_auth net g unique_id auth_code true = .error pe ∧
    check_auth net g unique_id auth_code true ≠ .ok (Json.bool true) := by
  have hmain : check_auth net g unique_id auth_code true = .error pe := by
    unfold check_auth
    rw [hok]
    exact herr
  refine ⟨hmain, ?_⟩
  rw [hmain]
  intro hcontra
  exact Except.noConfusion hcontra

/-- Concrete network for the C10 witness: the only endpoint succeeds with a
payload that lacks the `authenticated` key. -/
def c10Net : Net := fun _ =>
  .response 200 (some (Json.obj [("data", Json.obj [("x", Json.num 1)])])) "r"

/-- Witness for C10: the `KeyError` escapes `check_auth` in safe mode. -/
theorem c10_witness :
    (request_handler c10Net ⟨["https://a/"], []⟩ "post" "check/"
      (check_auth_params "uid" "123456")).1 =
      .ok (some (Json.obj [("x", Json.num 1)])) ∧
    hasAuthKey (some (Json.obj [("x", Json.num 1)])) = false ∧
    check_auth c10Net ⟨["https://a/"], []⟩ "uid" "123456" true =
      .error (.keyError "authenticated") :=
  ⟨rfl, rfl,
    (c10_safe_mode_lookup_error_propagates c10Net ⟨["https://a/"], []⟩
      "uid" "123456" (some (Json.obj [("x", Json.num 1)]))
      (.keyError "authenticated") rfl rfl rfl).1⟩
